import Mathlib

/-!
# Color guessing game: option generation and round control

A shallow embedding of `script.js`.

* A JavaScript string is a Lean `String`.  Every string the program builds or
  inspects is ASCII, where UTF-16 code units and characters coincide.
* A JavaScript number is an `Option Int`: `none` is `NaN`.  The channel
  numbers are small integers, on which double arithmetic is exact; `-0` and `0`
  behave alike in every operation the script applies and are both `0`.
* The score is a double holding a non-negative integer, kept as a `Nat`;
  `score++` is `increment`, which follows the rounding of the double.
* `Math.random()` is not computed.  Each call of `generateColorOptions`
  receives the outcomes of its random draws as a `Draw`.
-/

namespace ColorGame

/-! ## JavaScript built-ins used by the script -/

/-- `s.slice(a, b)` for literal indices `0 ≤ a ≤ b`: the characters at
positions `a .. b-1`, cut off at the end of the string. -/
def slice (s : String) (a b : Nat) : String :=
  String.mk ((s.data.drop a).take (b - a))

/-- White space skipped by `parseInt` before the number (`StrWhiteSpaceChar`). -/
def isStrWhiteSpace (c : Char) : Bool :=
  let n := c.toNat
  n == 0x09 || n == 0x0A || n == 0x0B || n == 0x0C || n == 0x0D || n == 0x20 ||
  n == 0xA0 || n == 0x1680 || (0x2000 ≤ n && n ≤ 0x200A) || n == 0x2028 ||
  n == 0x2029 || n == 0x202F || n == 0x205F || n == 0x3000 || n == 0xFEFF

/-- Value of a character as a digit in radix 16, if it is one. -/
def digit16 (c : Char) : Option Nat :=
  let n := c.toNat
  if 48 ≤ n ∧ n ≤ 57 then some (n - 48)
  else if 97 ≤ n ∧ n ≤ 102 then some (n - 87)
  else if 65 ≤ n ∧ n ≤ 70 then some (n - 55)
  else none

/-- The longest prefix of radix-16 digits, as digit values. -/
def takeDigits16 : List Char → List Nat
  | [] => []
  | c :: cs =>
    match digit16 c with
    | some d => d :: takeDigits16 cs
    | none => []

/-- `parseInt(s, 16)`: skip white space, read a sign, drop a `0x`/`0X`
prefix, read the longest run of hex digits; `NaN` when that run is empty. -/
def parseInt16 (s : String) : Option Int :=
  let t := s.data.dropWhile isStrWhiteSpace
  let neg := t.head? == some '-'
  let t := if t.head? == some '-' || t.head? == some '+' then t.drop 1 else t
  let t := if t.take 2 == ['0', 'x'] || t.take 2 == ['0', 'X'] then t.drop 2 else t
  match takeDigits16 t with
  | [] => none
  | ds =>
    let m : Nat := ds.foldl (fun acc d => 16 * acc + d) 0
    some (if neg then - (m : Int) else (m : Int))

/-- `x.toString(16)` for a number holding an integer or `NaN`. -/
def toString16 : Option Int → String
  | none => "NaN"
  | some n =>
    if n < 0 then String.mk ('-' :: Nat.toDigits 16 n.natAbs)
    else String.mk (Nat.toDigits 16 n.natAbs)

/-- `s.padStart(len, c)` with a one-character filler. -/
def padStart (s : String) (len : Nat) (c : Char) : String :=
  String.mk (List.replicate (len - s.data.length) c ++ s.data)

/-- `Math.max(x, 0)`. -/
def mathMax0 : Option Int → Option Int
  | none => none
  | some x => some (max x 0)

/-- `Math.min(x, 255)`. -/
def mathMin255 : Option Int → Option Int
  | none => none
  | some x => some (min x 255)

/-- `x - k` for a number `x` and an integer constant `k`. -/
def numSub (x : Option Int) (k : Int) : Option Int := x.map (· - k)

/-- `x + k` for a number `x` and an integer constant `k`. -/
def numAdd (x : Option Int) (k : Int) : Option Int := x.map (· + k)

/-- `x > k`; false on `NaN`. -/
def numGt (x : Option Int) (k : Int) : Bool :=
  match x with
  | none => false
  | some v => decide (k < v)

/-- `x < k`; false on `NaN`. -/
def numLt (x : Option Int) (k : Int) : Bool :=
  match x with
  | none => false
  | some v => decide (v < k)

/-- The first integer `n` for which the double `n + 1` is not `n + 1`: 2^53. -/
def exactLimit : Nat := 9007199254740992

/-- `n++` on a double holding the non-negative integer `n`.  Below 2^53 the
sum `n + 1` is exact.  From 2^53 to 2^54 doubles are 2 apart, `n + 1` lies
halfway between `n` and `n + 2` and rounds to the one with the even
significand.  From 2^54 on doubles are at least 4 apart and `n + 1` rounds
back to `n`. -/
def increment (n : Nat) : Nat :=
  if n < exactLimit then n + 1
  else if n < 2 * exactLimit then (if (n / 2) % 2 = 0 then n else n + 2)
  else n

/-! ## The script -/

/-- The predefined colors. -/
def baseColors : List String :=
  ["#FF0000", "#00FF00", "#0000FF", "#FFFF00",
   "#FF00FF", "#00FFFF", "#FFA500", "#800080"]

/-- Checks if a color is red-based by analyzing its RGB values. -/
def isRed (color : String) : Bool :=
  let r := parseInt16 (slice color 1 3)
  let g := parseInt16 (slice color 3 5)
  let b := parseInt16 (slice color 5 7)
  numGt r 200 && numLt g 100 && numLt b 100

/-- The body of the loop of `generateRedShades` for one `i`. -/
def redShade (r g b : Option Int) (i : Nat) : String :=
  let newR := mathMax0 (numSub r ((i : Int) * 40))
  let newG := mathMin255 (numAdd g ((i : Int) * 20))
  let newB := mathMin255 (numAdd b ((i : Int) * 20))
  "#" ++ padStart (toString16 newR) 2 '0' ++ padStart (toString16 newG) 2 '0'
    ++ padStart (toString16 newB) 2 '0'

/-- Generates 5 shades of red based on a base red color. -/
def generateRedShades (baseRed : String) : List String :=
  let r := parseInt16 (slice baseRed 1 3)
  let g := parseInt16 (slice baseRed 3 5)
  let b := parseInt16 (slice baseRed 5 7)
  (List.range 5).foldl (fun shades i => shades ++ [redShade r g b i]) []

/-- The random outcomes one call of `generateColorOptions` consumes: the
index `Math.floor(Math.random() * baseColors.length)`, and what each of the
two `sort(() => Math.random() - 0.5)` calls does to the array it is given. -/
structure Draw where
  pick : Fin baseColors.length
  sortDecoys : List String → List String
  sortOptions : List String → List String

/-- A sort rearranges the array it is given, whatever its comparator answers. -/
def Draw.Rearranges (d : Draw) : Prop :=
  (∀ l, (d.sortDecoys l).Perm l) ∧ (∀ l, (d.sortOptions l).Perm l)

/-- Generates color options for the game.  Returns the value assigned to the
global `targetColor` together with the returned array. -/
def generateColorOptions (d : Draw) : String × List String :=
  let options : List String := []
  let targetColor := baseColors.get d.pick
  let options := options ++ [targetColor]
  let options :=
    if isRed targetColor then
      let redShades := generateRedShades targetColor
      options ++ (redShades.filter (fun shade => shade != targetColor)).take 5
    else
      let distinctColors :=
        (d.sortDecoys (baseColors.filter (fun color => color != targetColor))).take 5
      options ++ distinctColors
  (targetColor, d.sortOptions options)

/-- A callback handed to `setTimeout(..., 1000)` by `checkGuess`. -/
inductive Callback where
  | afterCorrect
  | afterWrong
  deriving DecidableEq, Repr

/-- The globals of the script and the parts of the page it writes. -/
structure Game where
  /-- `score`: a double that holds a non-negative integer; it starts at 0 and
  only ever changes by `score = 0` and `score++` -/
  score : Nat
  /-- `targetColor`; `none` is `undefined` -/
  targetColor : Option String
  /-- `colorBox.style.backgroundColor` as assigned -/
  colorBox : String
  /-- background colors of the buttons inside `colorOptions`, in order -/
  buttons : List String
  /-- `gameStatus.textContent` -/
  statusText : String
  /-- `gameStatus.classList` -/
  statusClasses : List String
  /-- `scoreElement.textContent`; a score is written in decimal digits, which
  is how a number below 10^21 converts to a string -/
  scoreText : String
  /-- callbacks scheduled by `setTimeout` and not yet run, oldest first -/
  pending : List Callback

/-- `classList.add(c)`. -/
def classAdd (l : List String) (c : String) : List String :=
  if c ∈ l then l else l ++ [c]

/-- `classList.remove(c)`. -/
def classRemove (l : List String) (c : String) : List String :=
  l.filter (fun x => x != c)

/-- Renders the color options as buttons in the DOM. -/
def renderColorOptions (s : Game) (d : Draw) : Game :=
  let g := generateColorOptions d
  { s with targetColor := some g.1, colorBox := g.1, buttons := g.2 }

/-- Checks if the selected color matches the target color.
Updates the game status and score accordingly. -/
def checkGuess (s : Game) (selectedColor : String) : Game :=
  if some selectedColor = s.targetColor then
    { s with
      statusText := "Correct!"
      statusClasses := classAdd s.statusClasses "correct"
      score := increment s.score
      scoreText := toString (increment s.score)
      pending := s.pending ++ [Callback.afterCorrect] }
  else
    { s with
      statusText := "Wrong! Try again."
      statusClasses := classAdd s.statusClasses "wrong"
      pending := s.pending ++ [Callback.afterWrong] }

/-- The body of a scheduled callback, run on the state current when it fires. -/
def runCallback (s : Game) (c : Callback) (d : Draw) : Game :=
  match c with
  | Callback.afterCorrect =>
    let s := renderColorOptions s d
    { s with statusText := "", statusClasses := classRemove s.statusClasses "correct" }
  | Callback.afterWrong =>
    { s with statusText := "", statusClasses := classRemove s.statusClasses "wrong" }

/-- Resets the game to its initial state. -/
def resetGame (s : Game) (d : Draw) : Game :=
  let s := { s with score := 0 }
  let s := { s with scoreText := toString s.score }
  let s := { s with statusText := "" }
  renderColorOptions s d

/-- What can happen after the script has loaded: a click on the new-game
button, a click on an option button (or any other call of `checkGuess`), and
the firing of the oldest scheduled callback. -/
inductive Event where
  | newGame (d : Draw)
  | guess (selectedColor : String)
  | timeout (d : Draw)

/-- One event applied to the game. -/
def step (s : Game) : Event → Game
  | Event.newGame d => resetGame s d
  | Event.guess c => checkGuess s c
  | Event.timeout d =>
    match s.pending with
    | [] => s
    | c :: rest => runCallback { s with pending := rest } c d

/-- A sequence of events applied in order. -/
def run (s : Game) (es : List Event) : Game := es.foldl step s

/-- Loading the script on a page: `score = 0`, `targetColor` undefined, no
callback scheduled, then the call `resetGame()` of the last line. -/
def load (page : Game) (d : Draw) : Game :=
  resetGame { page with score := 0, targetColor := none, pending := [] } d

/-! ## Notions the statements use -/

/-- The three channels of a color string as the script reads them. -/
def channels (color : String) : Option Int × Option Int × Option Int :=
  (parseInt16 (slice color 1 3), parseInt16 (slice color 3 5), parseInt16 (slice color 5 7))

/-- The characters accepted as hex digits, in either letter case. -/
def hexDigits : List Char :=
  ['0', '1', '2', '3', '4', '5', '6', '7', '8', '9',
   'a', 'b', 'c', 'd', 'e', 'f', 'A', 'B', 'C', 'D', 'E', 'F']

/-- The value of a hex digit, read off a table. -/
def hexValue (c : Char) : Nat :=
  match c with
  | '0' => 0 | '1' => 1 | '2' => 2 | '3' => 3 | '4' => 4
  | '5' => 5 | '6' => 6 | '7' => 7 | '8' => 8 | '9' => 9
  | 'a' => 10 | 'b' => 11 | 'c' => 12 | 'd' => 13 | 'e' => 14 | 'f' => 15
  | 'A' => 10 | 'B' => 11 | 'C' => 12 | 'D' => 13 | 'E' => 14 | 'F' => 15
  | _ => 0

/-- The channel written by two hex digits. -/
def channelOf (hi lo : Char) : Nat := 16 * hexValue hi + hexValue lo

/-- A well-formed color string: `#` followed by six hex digits. -/
def WellFormed (s : String) : Prop :=
  ∃ c1 c2 c3 c4 c5 c6 : Char,
    c1 ∈ hexDigits ∧ c2 ∈ hexDigits ∧ c3 ∈ hexDigits ∧
    c4 ∈ hexDigits ∧ c5 ∈ hexDigits ∧ c6 ∈ hexDigits ∧
    s = String.mk ['#', c1, c2, c3, c4, c5, c6]

/-- The lowercase hex digit of a value below 16. -/
def lowerHexChar (n : Nat) : Char :=
  match n with
  | 0 => '0' | 1 => '1' | 2 => '2' | 3 => '3' | 4 => '4'
  | 5 => '5' | 6 => '6' | 7 => '7' | 8 => '8' | 9 => '9'
  | 10 => 'a' | 11 => 'b' | 12 => 'c' | 13 => 'd' | 14 => 'e' | _ => 'f'

/-- The two-digit zero-padded lowercase hex encoding of a value below 256. -/
def hex2 (n : Nat) : String := String.mk [lowerHexChar (n / 16), lowerHexChar (n % 16)]

/-- The shade the specification describes for step `i` of a base color with
channels `r`, `g`, `b`: red lowered by `40 * i` but not below 0, green and
blue raised by `20 * i` but not above 255, each written as two hex digits. -/
def shadeOf (r g b i : Nat) : String :=
  "#" ++ hex2 (r - 40 * i) ++ hex2 (min (g + 20 * i) 255) ++ hex2 (min (b + 20 * i) 255)

/-- The 24-bit RGB value a color string decodes to, when its three channels
are numbers.  Letter case plays no part: the channels are read by `parseInt`. -/
def rgbValue (color : String) : Option Int :=
  match channels color with
  | (some r, some g, some b) => some (r * 65536 + g * 256 + b)
  | _ => none

/-- How many of the guesses in a run of events were correct since the last
new game, starting the count at `n`. -/
def correctSinceReset : Game → List Event → Nat → Nat
  | _, [], n => n
  | s, Event.newGame d :: es, _ => correctSinceReset (step s (Event.newGame d)) es 0
  | s, Event.guess c :: es, n =>
    correctSinceReset (step s (Event.guess c)) es (if some c = s.targetColor then n + 1 else n)
  | s, Event.timeout d :: es, n => correctSinceReset (step s (Event.timeout d)) es n

/-- A draw whose sorts leave the array as it is. -/
def drawKeep (k : Fin baseColors.length) : Draw :=
  { pick := k, sortDecoys := fun l => l, sortOptions := fun l => l }

/-- A draw whose sorts reverse the array. -/
def drawReverse (k : Fin baseColors.length) : Draw :=
  { pick := k, sortDecoys := List.reverse, sortOptions := List.reverse }

/-- The entries added after the target, before the final sort. -/
def decoysOf (d : Draw) : List String :=
  if isRed (baseColors.get d.pick) then
    ((generateRedShades (baseColors.get d.pick)).filter
      (fun shade => shade != baseColors.get d.pick)).take 5
  else
    (d.sortDecoys (baseColors.filter (fun color => color != baseColors.get d.pick))).take 5

/-- A page before the script has run, for use in worked instances. -/
def blankPage : Game :=
  { score := 0, targetColor := none, colorBox := "", buttons := [], statusText := "",
    statusClasses := [], scoreText := "", pending := [] }

/-- A round with target `#FF0000` on display and the score at 2^53. -/
def roundAtLimit : Game :=
  { score := exactLimit, targetColor := some "#FF0000", colorBox := "#FF0000",
    buttons := ["#FF0000", "#ff0000", "#d71414", "#af2828", "#873c3c", "#5f5050"],
    statusText := "", statusClasses := [], scoreText := "9007199254740992", pending := [] }

/-- The draw that picks `#FF0000` and whose sorts leave the arrays as they are. -/
def drawRed : Draw := drawKeep ⟨0, by decide⟩

/-- A play of `n` rounds after a load that picked `#FF0000`: each round is a
click on the option `#FF0000`, followed by the callback of that click, which
renders the next round with the draw `drawRed`. -/
def redRounds : Nat → List Event
  | 0 => []
  | n + 1 => Event.guess "#FF0000" :: Event.timeout drawRed :: redRounds n

/-! ## Facts about the palette and the red shades -/

theorem baseColors_nodup : baseColors.Nodup := by decide

theorem redShades_of_red :
    generateRedShades "#FF0000" = ["#ff0000", "#d71414", "#af2828", "#873c3c", "#5f5050"] := by
  decide

theorem red_pick (k : Fin baseColors.length) (h : isRed (baseColors.get k) = true) :
    baseColors.get k = "#FF0000" := by
  revert k
  decide

theorem others_length (k : Fin baseColors.length) :
    (baseColors.filter (fun color => color != baseColors.get k)).length = 7 := by
  revert k
  decide

theorem target_eq (d : Draw) : (generateColorOptions d).1 = baseColors.get d.pick := rfl

theorem options_eq (d : Draw) :
    (generateColorOptions d).2 = d.sortOptions (baseColors.get d.pick :: decoysOf d) := by
  unfold generateColorOptions decoysOf
  by_cases h : isRed (baseColors.get d.pick) = true
  · simp only [h, if_true, List.nil_append, List.singleton_append]
  · simp only [h, if_false, List.nil_append, List.singleton_append, Bool.false_eq_true]

theorem options_perm (d : Draw) (h : d.Rearranges) :
    (generateColorOptions d).2.Perm ((generateColorOptions d).1 :: decoysOf d) := by
  rw [options_eq, target_eq]
  exact h.2 _

theorem decoys_ne_target (d : Draw) (h : d.Rearranges) :
    ∀ c ∈ decoysOf d, c ≠ baseColors.get d.pick := by
  intro c hc
  unfold decoysOf at hc
  split at hc
  · have := List.mem_of_mem_take hc
    simpa using (List.mem_filter.1 this).2
  · have := (h.1 _).mem_iff.1 (List.mem_of_mem_take hc)
    simpa using (List.mem_filter.1 this).2

theorem decoys_length (d : Draw) (h : d.Rearranges) : (decoysOf d).length = 5 := by
  unfold decoysOf
  split
  · next hr =>
    rw [red_pick _ hr, redShades_of_red]
    decide
  · rw [List.length_take, (h.1 _).length_eq, others_length]
    rfl

theorem drawKeep_rearranges (k : Fin baseColors.length) : (drawKeep k).Rearranges :=
  ⟨fun l => List.Perm.refl l, fun l => List.Perm.refl l⟩

theorem drawReverse_rearranges (k : Fin baseColors.length) : (drawReverse k).Rearranges :=
  ⟨fun l => List.reverse_perm l, fun l => List.reverse_perm l⟩

theorem decoys_nodup (d : Draw) (h : d.Rearranges)
    (hn : isRed (baseColors.get d.pick) = false) : (decoysOf d).Nodup := by
  unfold decoysOf
  rw [if_neg (by rw [hn]; decide)]
  refine List.Nodup.sublist (List.take_sublist _ _) ?_
  exact (h.1 _).nodup_iff.2 (baseColors_nodup.filter _)

theorem decoys_from_palette (d : Draw) (h : d.Rearranges)
    (hn : isRed (baseColors.get d.pick) = false) : ∀ c ∈ decoysOf d, c ∈ baseColors := by
  intro c hc
  unfold decoysOf at hc
  rw [if_neg (by rw [hn]; decide)] at hc
  exact (List.mem_filter.1 ((h.1 _).mem_iff.1 (List.mem_of_mem_take hc))).1

theorem decoys_of_red (d : Draw) (hr : baseColors.get d.pick = "#FF0000") :
    decoysOf d = ["#ff0000", "#d71414", "#af2828", "#873c3c", "#5f5050"] := by
  unfold decoysOf
  have hred : isRed "#FF0000" = true := by decide
  rw [hr, redShades_of_red, if_pos hred]
  decide

theorem options_length (d : Draw) (h : d.Rearranges) :
    (generateColorOptions d).2.length = 6 := by
  rw [(options_perm d h).length_eq, List.length_cons, decoys_length d h]

/-! ## Option generation -/

/-- C1: whatever palette entry is picked and however the two sorts rearrange
their arrays, the returned options hold the target string exactly once. -/
theorem target_exactly_once (d : Draw) (h : d.Rearranges) :
    (generateColorOptions d).2.count (generateColorOptions d).1 = 1 := by
  rw [(options_perm d h).count_eq, target_eq, List.count_cons_self, List.count_eq_zero.2]
  intro hm
  exact decoys_ne_target d h _ hm rfl

theorem target_exactly_once_witness :
    (drawReverse ⟨3, by decide⟩).Rearranges ∧
      (generateColorOptions (drawReverse ⟨3, by decide⟩)).2.count
        (generateColorOptions (drawReverse ⟨3, by decide⟩)).1 = 1 :=
  ⟨drawReverse_rearranges _, target_exactly_once _ (drawReverse_rearranges _)⟩

/-- C2: whatever palette entry is picked, red-like or not, and however the two
sorts rearrange their arrays, the returned array has exactly 6 options. -/
theorem options_length_six (d : Draw) (h : d.Rearranges) :
    (generateColorOptions d).2.length = 6 := by
  have hp : (generateColorOptions d).2.Perm ((generateColorOptions d).1 :: decoysOf d) :=
    options_perm d h
  have hd : (decoysOf d).length = 5 := decoys_length d h
  rw [hp.length_eq, List.length_cons, hd]

theorem options_length_six_witness :
    (drawReverse ⟨0, by decide⟩).Rearranges ∧
      (generateColorOptions (drawReverse ⟨0, by decide⟩)).2.length = 6 :=
  ⟨drawReverse_rearranges _, options_length_six _ (drawReverse_rearranges _)⟩

/-- C3, as stated, fails: with the target `#FF0000` the shade for `i = 0` is
the string `#ff0000`, the test `shade !== targetColor` keeps it, all 5 shades
remain and 6 options are returned, not 5. -/
theorem red_branch_not_five :
    (generateColorOptions (drawKeep ⟨0, by decide⟩)).1 = "#FF0000" ∧
    isRed "#FF0000" = true ∧
    (generateRedShades "#FF0000").head? = some "#ff0000" ∧
    ("#ff0000" != "#FF0000") = true ∧
    ((generateRedShades "#FF0000").filter (fun shade => shade != "#FF0000")).length = 5 ∧
    (generateColorOptions (drawKeep ⟨0, by decide⟩)).2.length = 6 ∧
    ¬ (generateColorOptions (drawKeep ⟨0, by decide⟩)).2.length = 5 := by
  decide

/-- C3, amended: when the picked target is red-like it is `#FF0000`, the shade
for `i = 0` is `#ff0000`, which has the channels of the target, and the
returned array is a rearrangement of the target followed by 5 decoys, none of
them the target string: 6 options in all. -/
theorem red_branch_six (d : Draw) (h : d.Rearranges)
    (hr : isRed (generateColorOptions d).1 = true) :
    (generateColorOptions d).1 = "#FF0000" ∧
    (generateRedShades (generateColorOptions d).1).head? = some "#ff0000" ∧
    channels "#ff0000" = channels (generateColorOptions d).1 ∧
    (∃ decoys : List String,
      decoys.length = 5 ∧
      (∀ c ∈ decoys, c ≠ (generateColorOptions d).1) ∧
      (generateColorOptions d).2.Perm ((generateColorOptions d).1 :: decoys)) ∧
    (generateColorOptions d).2.length = 6 := by
  have ht : (generateColorOptions d).1 = "#FF0000" := red_pick d.pick hr
  refine ⟨ht, ?_, ?_, ⟨decoysOf d, decoys_length d h, decoys_ne_target d h, options_perm d h⟩,
    options_length d h⟩
  · rw [ht]; decide
  · rw [ht]; decide

theorem red_branch_six_witness :
    (drawKeep ⟨0, by decide⟩).Rearranges ∧
    isRed (generateColorOptions (drawKeep ⟨0, by decide⟩)).1 = true ∧
    (generateColorOptions (drawKeep ⟨0, by decide⟩)).2.length = 6 :=
  ⟨drawKeep_rearranges _, by decide,
    (red_branch_six (drawKeep ⟨0, by decide⟩) (drawKeep_rearranges _) (by decide)).2.2.2.2⟩

/-- C4 at the failing input: with the target `#FF0000`, however the sorts
rearrange their arrays, the options hold both `#FF0000` and `#ff0000`, which
decode to the same RGB value, so the decoded options are not pairwise distinct. -/
theorem red_options_repeat_color (d : Draw) (h : d.Rearranges)
    (hr : (generateColorOptions d).1 = "#FF0000") :
    "#FF0000" ∈ (generateColorOptions d).2 ∧ "#ff0000" ∈ (generateColorOptions d).2 ∧
    rgbValue "#FF0000" = some 16711680 ∧ rgbValue "#ff0000" = some 16711680 ∧
    ¬ ((generateColorOptions d).2.map rgbValue).Nodup := by
  have hp := options_perm d h
  rw [hr, decoys_of_red d hr] at hp
  refine ⟨hp.mem_iff.2 (by decide), hp.mem_iff.2 (by decide), by decide, by decide, ?_⟩
  rw [(hp.map rgbValue).nodup_iff]
  decide

theorem red_options_repeat_color_witness :
    (drawReverse ⟨0, by decide⟩).Rearranges ∧
    (generateColorOptions (drawReverse ⟨0, by decide⟩)).1 = "#FF0000" ∧
    ¬ ((generateColorOptions (drawReverse ⟨0, by decide⟩)).2.map rgbValue).Nodup :=
  ⟨drawReverse_rearranges _, by decide,
    (red_options_repeat_color (drawReverse ⟨0, by decide⟩) (drawReverse_rearranges _)
      (by decide)).2.2.2.2⟩

/-- C5: when the picked target is not red-like, however the sorts rearrange
their arrays, the returned array is a rearrangement of the target followed by
5 decoys; the decoys are pairwise distinct, each is one of the 7 palette
entries other than the target, and the 6 returned entries are pairwise
distinct. -/
theorem non_red_options (d : Draw) (h : d.Rearranges)
    (hn : isRed (generateColorOptions d).1 = false) :
    ∃ decoys : List String,
      (generateColorOptions d).2.Perm ((generateColorOptions d).1 :: decoys) ∧
      decoys.length = 5 ∧ decoys.Nodup ∧
      (∀ c ∈ decoys, c ∈ baseColors ∧ c ≠ (generateColorOptions d).1) ∧
      (baseColors.filter (fun color => color != (generateColorOptions d).1)).length = 7 ∧
      (generateColorOptions d).2.length = 6 ∧ (generateColorOptions d).2.Nodup := by
  refine ⟨decoysOf d, options_perm d h, decoys_length d h, decoys_nodup d h hn, ?_,
    others_length d.pick, options_length d h, ?_⟩
  · intro c hc
    exact ⟨decoys_from_palette d h hn c hc, decoys_ne_target d h c hc⟩
  · rw [(options_perm d h).nodup_iff, List.nodup_cons]
    refine ⟨fun hm => decoys_ne_target d h _ hm rfl, decoys_nodup d h hn⟩

theorem non_red_options_witness :
    (drawReverse ⟨1, by decide⟩).Rearranges ∧
    (generateColorOptions (drawReverse ⟨1, by decide⟩)).1 = "#00FF00" ∧
    isRed (generateColorOptions (drawReverse ⟨1, by decide⟩)).1 = false ∧
    ∃ decoys : List String,
      (generateColorOptions (drawReverse ⟨1, by decide⟩)).2.Perm
        ((generateColorOptions (drawReverse ⟨1, by decide⟩)).1 :: decoys) ∧
      decoys.length = 5 ∧ decoys.Nodup ∧
      (∀ c ∈ decoys, c ∈ baseColors ∧ c ≠ (generateColorOptions (drawReverse ⟨1, by decide⟩)).1) ∧
      (baseColors.filter
        (fun color => color != (generateColorOptions (drawReverse ⟨1, by decide⟩)).1)).length = 7 ∧
      (generateColorOptions (drawReverse ⟨1, by decide⟩)).2.length = 6 ∧
      (generateColorOptions (drawReverse ⟨1, by decide⟩)).2.Nodup :=
  ⟨drawReverse_rearranges _, by decide, by decide,
    non_red_options (drawReverse ⟨1, by decide⟩) (drawReverse_rearranges _) (by decide)⟩

/-! ## Reading and writing hex channels -/

set_option maxRecDepth 100000 in
theorem parseInt16_pair : ∀ c ∈ hexDigits, ∀ d ∈ hexDigits,
    parseInt16 (String.mk [c, d]) = some ((channelOf c d : Nat) : Int) := by
  decide

theorem channelOf_lt : ∀ c ∈ hexDigits, ∀ d ∈ hexDigits, channelOf c d < 256 := by
  decide

set_option maxRecDepth 100000 in
theorem padStart_hex :
    ∀ n : Nat, n < 256 → padStart (toString16 (some (n : Int))) 2 '0' = hex2 n := by
  decide

set_option maxRecDepth 100000 in
theorem parseInt16_hex2 : ∀ n : Nat, n < 256 → parseInt16 (hex2 n) = some (n : Int) := by
  decide

theorem lowerHexChar_mem : ∀ n, n < 16 → lowerHexChar n ∈ hexDigits := by
  decide

theorem channels_wellFormed (c1 c2 c3 c4 c5 c6 : Char)
    (h1 : c1 ∈ hexDigits) (h2 : c2 ∈ hexDigits) (h3 : c3 ∈ hexDigits)
    (h4 : c4 ∈ hexDigits) (h5 : c5 ∈ hexDigits) (h6 : c6 ∈ hexDigits) :
    channels (String.mk ['#', c1, c2, c3, c4, c5, c6]) =
      (some ((channelOf c1 c2 : Nat) : Int), some ((channelOf c3 c4 : Nat) : Int),
        some ((channelOf c5 c6 : Nat) : Int)) := by
  have e1 : slice (String.mk ['#', c1, c2, c3, c4, c5, c6]) 1 3 = String.mk [c1, c2] := rfl
  have e2 : slice (String.mk ['#', c1, c2, c3, c4, c5, c6]) 3 5 = String.mk [c3, c4] := rfl
  have e3 : slice (String.mk ['#', c1, c2, c3, c4, c5, c6]) 5 7 = String.mk [c5, c6] := rfl
  unfold channels
  rw [e1, e2, e3, parseInt16_pair c1 h1 c2 h2, parseInt16_pair c3 h3 c4 h4,
    parseInt16_pair c5 h5 c6 h6]

theorem isRed_channels (color : String) :
    isRed color =
      (numGt (channels color).1 200 && numLt (channels color).2.1 100 &&
        numLt (channels color).2.2 100) := rfl

theorem generateRedShades_channels (baseRed : String) :
    generateRedShades baseRed =
      [redShade (channels baseRed).1 (channels baseRed).2.1 (channels baseRed).2.2 0,
       redShade (channels baseRed).1 (channels baseRed).2.1 (channels baseRed).2.2 1,
       redShade (channels baseRed).1 (channels baseRed).2.1 (channels baseRed).2.2 2,
       redShade (channels baseRed).1 (channels baseRed).2.1 (channels baseRed).2.2 3,
       redShade (channels baseRed).1 (channels baseRed).2.1 (channels baseRed).2.2 4] := rfl

theorem redShade_eq (r g b i : Nat) (hr : r < 256) :
    redShade (some (r : Int)) (some (g : Int)) (some (b : Int)) i = shadeOf r g b i := by
  have e1 : max ((r : Int) - (i : Int) * 40) 0 = ((r - 40 * i : Nat) : Int) := by omega
  have e2 : min ((g : Int) + (i : Int) * 20) 255 = ((min (g + 20 * i) 255 : Nat) : Int) := by
    omega
  have e3 : min ((b : Int) + (i : Int) * 20) 255 = ((min (b + 20 * i) 255 : Nat) : Int) := by
    omega
  simp only [redShade, shadeOf, mathMax0, numSub, mathMin255, numAdd, Option.map, e1, e2, e3]
  rw [padStart_hex _ (by omega), padStart_hex _ (by omega), padStart_hex _ (by omega)]

theorem shade_wellFormed (x y z : Nat) (hx : x < 256) (hy : y < 256) (hz : z < 256) :
    WellFormed ("#" ++ hex2 x ++ hex2 y ++ hex2 z) ∧
    ("#" ++ hex2 x ++ hex2 y ++ hex2 z).length = 7 ∧
    channels ("#" ++ hex2 x ++ hex2 y ++ hex2 z) =
      (some (x : Int), some (y : Int), some (z : Int)) := by
  refine ⟨⟨lowerHexChar (x / 16), lowerHexChar (x % 16), lowerHexChar (y / 16),
    lowerHexChar (y % 16), lowerHexChar (z / 16), lowerHexChar (z % 16),
    lowerHexChar_mem _ (by omega), lowerHexChar_mem _ (by omega),
    lowerHexChar_mem _ (by omega), lowerHexChar_mem _ (by omega),
    lowerHexChar_mem _ (by omega), lowerHexChar_mem _ (by omega), rfl⟩, rfl, ?_⟩
  have e1 : slice ("#" ++ hex2 x ++ hex2 y ++ hex2 z) 1 3 = hex2 x := rfl
  have e2 : slice ("#" ++ hex2 x ++ hex2 y ++ hex2 z) 3 5 = hex2 y := rfl
  have e3 : slice ("#" ++ hex2 x ++ hex2 y ++ hex2 z) 5 7 = hex2 z := rfl
  unfold channels
  rw [e1, e2, e3, parseInt16_hex2 x hx, parseInt16_hex2 y hy, parseInt16_hex2 z hz]

/-- C6: for a color string made of `#` and six hex digits of either case, with
channels `r`, `g`, `b` written by the three digit pairs, `isRed` reads exactly
those channels and answers true if and only if `r > 200`, `g < 100` and
`b < 100`; it answers true for `#FF0000` and false for `#00FF00`, `#0000FF`,
`#FFA500` and `#800080`. -/
theorem isRed_iff_thresholds (c1 c2 c3 c4 c5 c6 : Char)
    (h1 : c1 ∈ hexDigits) (h2 : c2 ∈ hexDigits) (h3 : c3 ∈ hexDigits)
    (h4 : c4 ∈ hexDigits) (h5 : c5 ∈ hexDigits) (h6 : c6 ∈ hexDigits) :
    channels (String.mk ['#', c1, c2, c3, c4, c5, c6]) =
      (some ((channelOf c1 c2 : Nat) : Int), some ((channelOf c3 c4 : Nat) : Int),
        some ((channelOf c5 c6 : Nat) : Int)) ∧
    (isRed (String.mk ['#', c1, c2, c3, c4, c5, c6]) = true ↔
      channelOf c1 c2 > 200 ∧ channelOf c3 c4 < 100 ∧ channelOf c5 c6 < 100) ∧
    isRed "#FF0000" = true ∧ isRed "#00FF00" = false ∧ isRed "#0000FF" = false ∧
    isRed "#FFA500" = false ∧ isRed "#800080" = false := by
  refine ⟨channels_wellFormed c1 c2 c3 c4 c5 c6 h1 h2 h3 h4 h5 h6, ?_,
    by decide, by decide, by decide, by decide, by decide⟩
  rw [isRed_channels, channels_wellFormed c1 c2 c3 c4 c5 c6 h1 h2 h3 h4 h5 h6]
  simp only [numGt, numLt, Bool.and_eq_true, decide_eq_true_eq, and_assoc]
  omega

theorem isRed_iff_thresholds_witness :
    'F' ∈ hexDigits ∧ 'a' ∈ hexDigits ∧ '5' ∈ hexDigits ∧ '0' ∈ hexDigits ∧
    channelOf 'F' 'a' = 250 ∧ channelOf '5' '0' = 80 ∧
    (isRed (String.mk ['#', 'F', 'a', '5', '0', '0', '0']) = true ↔
      channelOf 'F' 'a' > 200 ∧ channelOf '5' '0' < 100 ∧ channelOf '0' '0' < 100) :=
  ⟨by decide, by decide, by decide, by decide, by decide, by decide,
    (isRed_iff_thresholds 'F' 'a' '5' '0' '0' '0' (by decide) (by decide) (by decide)
      (by decide) (by decide) (by decide)).2.1⟩

/-- C7: for a base color made of `#` and six hex digits with channels `r`,
`g`, `b`, `generateRedShades` returns exactly 5 strings, the `i`-th being `#`
followed by the two-digit lowercase hex encodings of `max(r - 40*i, 0)`,
`min(g + 20*i, 255)` and `min(b + 20*i, 255)`; every shade is a well-formed
color of 7 characters whose channels lie in 0..255.  For `#FF0000` the shade
at index 0 is `#ff0000` and the shade at index 4 is `#5f5050`. -/
theorem generateRedShades_spec (c1 c2 c3 c4 c5 c6 : Char)
    (h1 : c1 ∈ hexDigits) (h2 : c2 ∈ hexDigits) (h3 : c3 ∈ hexDigits)
    (h4 : c4 ∈ hexDigits) (h5 : c5 ∈ hexDigits) (h6 : c6 ∈ hexDigits) :
    generateRedShades (String.mk ['#', c1, c2, c3, c4, c5, c6]) =
      (List.range 5).map
        (fun i => shadeOf (channelOf c1 c2) (channelOf c3 c4) (channelOf c5 c6) i) ∧
    (generateRedShades (String.mk ['#', c1, c2, c3, c4, c5, c6])).length = 5 ∧
    (∀ s ∈ generateRedShades (String.mk ['#', c1, c2, c3, c4, c5, c6]),
      WellFormed s ∧ s.length = 7 ∧
      ∃ r g b : Nat, r ≤ 255 ∧ g ≤ 255 ∧ b ≤ 255 ∧
        channels s = (some (r : Int), some (g : Int), some (b : Int))) ∧
    (generateRedShades "#FF0000")[0]? = some "#ff0000" ∧
    (generateRedShades "#FF0000")[4]? = some "#5f5050" := by
  have hr := channelOf_lt c1 h1 c2 h2
  have key : generateRedShades (String.mk ['#', c1, c2, c3, c4, c5, c6]) =
      (List.range 5).map
        (fun i => shadeOf (channelOf c1 c2) (channelOf c3 c4) (channelOf c5 c6) i) := by
    rw [generateRedShades_channels, channels_wellFormed c1 c2 c3 c4 c5 c6 h1 h2 h3 h4 h5 h6]
    simp only [redShade_eq _ _ _ _ hr]
    rfl
  refine ⟨key, by rw [key]; simp, ?_, by decide, by decide⟩
  intro s hs
  rw [key] at hs
  obtain ⟨i, _, rfl⟩ := List.mem_map.1 hs
  obtain ⟨hw, hl, hc⟩ := shade_wellFormed (channelOf c1 c2 - 40 * i)
    (min (channelOf c3 c4 + 20 * i) 255) (min (channelOf c5 c6 + 20 * i) 255)
    (by omega) (by omega) (by omega)
  exact ⟨hw, hl, _, _, _, by omega, by omega, by omega, hc⟩

theorem generateRedShades_spec_witness :
    'F' ∈ hexDigits ∧ '0' ∈ hexDigits ∧
    generateRedShades (String.mk ['#', 'F', 'F', '0', '0', '0', '0']) =
      (List.range 5).map (fun i => shadeOf (channelOf 'F' 'F') (channelOf '0' '0')
        (channelOf '0' '0') i) :=
  ⟨by decide, by decide,
    (generateRedShades_spec 'F' 'F' '0' '0' '0' '0' (by decide) (by decide) (by decide)
      (by decide) (by decide) (by decide)).1⟩

/-! ## Round control -/

theorem increment_of_lt (n : Nat) (h : n < exactLimit) : increment n = n + 1 := by
  unfold increment
  rw [if_pos h]

theorem increment_exactLimit : increment exactLimit = exactLimit := by
  decide

theorem increment_min (n : Nat) :
    increment (min n exactLimit) = min (n + 1) exactLimit := by
  by_cases h : n < exactLimit
  · rw [Nat.min_eq_left (Nat.le_of_lt h), increment_of_lt n h, Nat.min_eq_left h]
  · have h1 : exactLimit ≤ n := Nat.le_of_not_lt h
    rw [Nat.min_eq_right h1, increment_exactLimit, Nat.min_eq_right (Nat.le_succ_of_le h1)]

theorem renderColorOptions_score (s : Game) (d : Draw) :
    (renderColorOptions s d).score = s.score := rfl

theorem runCallback_score (s : Game) (c : Callback) (d : Draw) :
    (runCallback s c d).score = s.score := by
  cases c <;> rfl

theorem checkGuess_score (s : Game) (c : String) :
    (checkGuess s c).score =
      if some c = s.targetColor then increment s.score else s.score := by
  unfold checkGuess
  split <;> rfl

theorem step_timeout_score (s : Game) (d : Draw) :
    (step s (Event.timeout d)).score = s.score := by
  show (match s.pending with
    | [] => s
    | c :: rest => runCallback { s with pending := rest } c d).score = s.score
  cases s.pending with
  | nil => rfl
  | cons c rest => exact runCallback_score _ c d

theorem run_cons (s : Game) (e : Event) (es : List Event) :
    run s (e :: es) = run (step s e) es := rfl

theorem run_score (es : List Event) :
    ∀ (s : Game) (n : Nat), s.score = min n exactLimit →
      (run s es).score = min (correctSinceReset s es n) exactLimit := by
  induction es with
  | nil => intro s n h; exact h
  | cons e es ih =>
    intro s n h
    rw [run_cons]
    cases e with
    | newGame d =>
      exact ih (step s (Event.newGame d)) 0 rfl
    | guess c =>
      refine ih (step s (Event.guess c)) _ ?_
      have hs : (step s (Event.guess c)).score =
          if some c = s.targetColor then increment s.score else s.score :=
        checkGuess_score s c
      rw [hs]
      by_cases hc : some c = s.targetColor
      · rw [if_pos hc, if_pos hc, h, increment_min]
      · rw [if_neg hc, if_neg hc, h]
    | timeout d =>
      refine ih (step s (Event.timeout d)) n ?_
      rw [step_timeout_score, h]

theorem red_round (s : Game) (ht : s.targetColor = some "#FF0000") (hp : s.pending = []) :
    (step (step s (Event.guess "#FF0000")) (Event.timeout drawRed)).targetColor =
      some "#FF0000" ∧
    (step (step s (Event.guess "#FF0000")) (Event.timeout drawRed)).pending = [] := by
  have hg : step s (Event.guess "#FF0000") = checkGuess s "#FF0000" := rfl
  have hc : (checkGuess s "#FF0000").pending = [Callback.afterCorrect] := by
    unfold checkGuess
    rw [if_pos ht.symm]
    show s.pending ++ [Callback.afterCorrect] = [Callback.afterCorrect]
    rw [hp]
    rfl
  rw [hg]
  have hstep : step (checkGuess s "#FF0000") (Event.timeout drawRed) =
      (match (checkGuess s "#FF0000").pending with
        | [] => checkGuess s "#FF0000"
        | c :: rest => runCallback { checkGuess s "#FF0000" with pending := rest } c drawRed) :=
    rfl
  rw [hstep, hc]
  exact ⟨rfl, rfl⟩

theorem redRounds_count (n : Nat) :
    ∀ (s : Game) (k : Nat), s.targetColor = some "#FF0000" → s.pending = [] →
      correctSinceReset s (redRounds n) k = k + n := by
  induction n with
  | zero => intro s k _ _; rfl
  | succ n ih =>
    intro s k ht hp
    have hr := red_round s ht hp
    show correctSinceReset (step (step s (Event.guess "#FF0000")) (Event.timeout drawRed))
      (redRounds n) (if some "#FF0000" = s.targetColor then k + 1 else k) = k + (n + 1)
    rw [if_pos ht.symm, ih _ (k + 1) hr.1 hr.2]
    omega

/-- C8, as stated, fails: in the round with target `#FF0000` and the score at
2^53, a click on the option `#FF0000` is a correct guess and leaves the score
at 2^53; it does not increase by 1. -/
theorem checkGuess_at_limit :
    roundAtLimit.targetColor = some "#FF0000" ∧
    roundAtLimit.score = 9007199254740992 ∧
    (checkGuess roundAtLimit "#FF0000").statusText = "Correct!" ∧
    (checkGuess roundAtLimit "#FF0000").score = 9007199254740992 ∧
    ¬ (checkGuess roundAtLimit "#FF0000").score = roundAtLimit.score + 1 := by
  decide

/-- C8, amended: on the explicit game state with the score below 2^53,
`checkGuess` raises the score by exactly 1 when the selection is the target
and leaves it as it was otherwise; it never changes the target or the rendered
options itself; after a wrong selection the callback it schedules is the one
that only clears the status, which changes neither score nor target nor
options on whatever state it runs, so score and round are the same after that
callback as before the guess. -/
theorem checkGuess_effect (s : Game) (selectedColor : String) (d : Draw)
    (hb : s.score < exactLimit) :
    (checkGuess s selectedColor).score =
      (if some selectedColor = s.targetColor then s.score + 1 else s.score) ∧
    (checkGuess s selectedColor).targetColor = s.targetColor ∧
    (checkGuess s selectedColor).buttons = s.buttons ∧
    (checkGuess s selectedColor).pending =
      s.pending ++ [if some selectedColor = s.targetColor then Callback.afterCorrect
        else Callback.afterWrong] ∧
    (∀ t : Game, (runCallback t Callback.afterWrong d).score = t.score ∧
      (runCallback t Callback.afterWrong d).targetColor = t.targetColor ∧
      (runCallback t Callback.afterWrong d).buttons = t.buttons) ∧
    (some selectedColor = s.targetColor ∨
      ((runCallback (checkGuess s selectedColor) Callback.afterWrong d).score = s.score ∧
        (runCallback (checkGuess s selectedColor) Callback.afterWrong d).targetColor =
          s.targetColor ∧
        (runCallback (checkGuess s selectedColor) Callback.afterWrong d).buttons =
          s.buttons ∧
        (runCallback (checkGuess s selectedColor) Callback.afterWrong d).statusText = "")) := by
  refine ⟨?_, ?_, ?_, ?_, fun t => ⟨rfl, rfl, rfl⟩, ?_⟩
  · rw [checkGuess_score, increment_of_lt s.score hb]
  · unfold checkGuess; split <;> rfl
  · unfold checkGuess; split <;> rfl
  · unfold checkGuess; split <;> rfl
  · by_cases h : some selectedColor = s.targetColor
    · exact Or.inl h
    · refine Or.inr ?_
      unfold checkGuess
      rw [if_neg h]
      exact ⟨rfl, rfl, rfl, rfl⟩

theorem checkGuess_effect_witness :
    (load blankPage drawRed).score < exactLimit ∧
    (load blankPage drawRed).targetColor = some "#FF0000" ∧
    (checkGuess (load blankPage drawRed) "#FF0000").score = 1 ∧
    (checkGuess (load blankPage drawRed) "#5f5050").score = 0 :=
  ⟨by decide, by decide,
    (checkGuess_effect (load blankPage drawRed) "#FF0000" drawRed (by decide)).1,
    (checkGuess_effect (load blankPage drawRed) "#5f5050" drawRed (by decide)).1⟩

/-- C9, as stated, fails: after the script has loaded with the target
`#FF0000`, a play of 2^53 + 1 rounds, each a correct guess followed by its
callback, holds 2^53 + 1 correct guesses and no new game, and ends with the
score 2^53. -/
theorem score_stops_counting :
    (run (load blankPage drawRed) (redRounds (exactLimit + 1))).score = exactLimit ∧
    correctSinceReset (load blankPage drawRed) (redRounds (exactLimit + 1)) 0 =
      exactLimit + 1 ∧
    ¬ (run (load blankPage drawRed) (redRounds (exactLimit + 1))).score =
      correctSinceReset (load blankPage drawRed) (redRounds (exactLimit + 1)) 0 := by
  have hc : correctSinceReset (load blankPage drawRed) (redRounds (exactLimit + 1)) 0 =
      exactLimit + 1 := by
    rw [redRounds_count (exactLimit + 1) (load blankPage drawRed) 0 rfl rfl]
    omega
  have hs : (run (load blankPage drawRed) (redRounds (exactLimit + 1))).score =
      exactLimit := by
    rw [run_score (redRounds (exactLimit + 1)) (load blankPage drawRed) 0 rfl, hc]
    exact Nat.min_eq_right (Nat.le_succ exactLimit)
  refine ⟨hs, hc, ?_⟩
  rw [hs, hc]
  exact Nat.ne_of_lt (Nat.lt_succ_self exactLimit)

/-- C9, amended: whatever the state before, after `resetGame` the score is 0
and the status text is empty; and in every state reached from the loaded
script, or from any `resetGame`, by new games, guesses and fired callbacks,
the score (a natural number) is the number of correct guesses since the last
new game, or 2^53 when that number is larger. -/
theorem resetGame_score (s page : Game) (d d0 : Draw) (es : List Event) :
    (resetGame s d).score = 0 ∧ (resetGame s d).statusText = "" ∧
    (load page d0).score = 0 ∧
    (run (load page d0) es).score =
      min (correctSinceReset (load page d0) es 0) exactLimit ∧
    (run (resetGame s d) es).score =
      min (correctSinceReset (resetGame s d) es 0) exactLimit :=
  ⟨rfl, rfl, rfl, run_score es (load page d0) 0 rfl, run_score es (resetGame s d) 0 rfl⟩

/-- C10: with the target `#FF0000`, however the sorts rearrange their arrays,
the options hold the string `#ff0000`; it has the channels of the target and
is not the same string, and `checkGuess` on it after the round is rendered
takes the wrong-guess branch and leaves the score as it was. -/
theorem red_shade_judged_wrong (d : Draw) (h : d.Rearranges)
    (hr : (generateColorOptions d).1 = "#FF0000") (s : Game) :
    "#ff0000" ∈ (generateColorOptions d).2 ∧
    channels "#ff0000" = channels "#FF0000" ∧ "#ff0000" ≠ "#FF0000" ∧
    "#ff0000" ∈ (renderColorOptions s d).buttons ∧
    (renderColorOptions s d).targetColor = some "#FF0000" ∧
    (checkGuess (renderColorOptions s d) "#ff0000").score = (renderColorOptions s d).score ∧
    (checkGuess (renderColorOptions s d) "#ff0000").statusText = "Wrong! Try again." ∧
    (checkGuess (renderColorOptions s d) "#ff0000").pending =
      (renderColorOptions s d).pending ++ [Callback.afterWrong] := by
  have hp := options_perm d h
  rw [hr, decoys_of_red d hr] at hp
  have hm : "#ff0000" ∈ (generateColorOptions d).2 := hp.mem_iff.2 (by decide)
  have ht : (renderColorOptions s d).targetColor = some "#FF0000" := by
    unfold renderColorOptions
    simp only [hr]
  have hne : ¬ some "#ff0000" = (renderColorOptions s d).targetColor := by
    rw [ht]; decide
  refine ⟨hm, by decide, by decide, hm, ht, ?_, ?_, ?_⟩
  · rw [checkGuess_score, if_neg hne]
  · unfold checkGuess; rw [if_neg hne]
  · unfold checkGuess; rw [if_neg hne]

theorem red_shade_judged_wrong_witness :
    (drawReverse ⟨0, by decide⟩).Rearranges ∧
    (generateColorOptions (drawReverse ⟨0, by decide⟩)).1 = "#FF0000" ∧
    "#ff0000" ∈ (generateColorOptions (drawReverse ⟨0, by decide⟩)).2 ∧
    (checkGuess (renderColorOptions blankPage (drawReverse ⟨0, by decide⟩)) "#ff0000").score =
      (renderColorOptions blankPage (drawReverse ⟨0, by decide⟩)).score :=
  ⟨drawReverse_rearranges _, by decide,
    (red_shade_judged_wrong (drawReverse ⟨0, by decide⟩) (drawReverse_rearranges _)
      (by decide) blankPage).1,
    (red_shade_judged_wrong (drawReverse ⟨0, by decide⟩) (drawReverse_rearranges _)
      (by decide) blankPage).2.2.2.2.2.1⟩

end ColorGame
